import Mathlib

/-
Shallow embedding of mrWheel/esp-networking (src/src/Networking.cpp and
src/src/Networking.h) for checking the natural-language specification.

The embedding covers:
  - the MultiStream output multiplexer (byte and block writes, buffer
    flushing, critical sections), with the two sinks (serial, telnet)
    modelled as byte queues separating bytes already drained to the wire
    (delivered) from bytes handed to the sink but not yet drained (pending);
  - the WiFi reconnect state machine driven by the event handlers
    onStationModeDisconnected / onStationModeGotIP and by reconnectWiFi;
  - the telnet session-displacement logic of Networking::loop;
  - the periodic NTP resync gate of Networking::loop and the NTP accessor
    functions ntpStart / ntpGetEpoch / the strftime-formatted accessors.

External collaborators (the radio driver, delay, millis, time, strftime)
are modelled as oracle inputs to the step functions. Log lines printed
through the multiplexer are not modelled as actions of the WiFi state
machine; only the state-changing effects (disconnect/begin retry
sequences, device restart) are.
-/

/-- BUFFER_SIZE from MultiStream (Networking.h line 31). -/
def BUFFER_SIZE : Nat := 128

/-- The line-terminator byte checked by MultiStream.write, byte value 10. -/
def NEWLINE : Nat := 10

/-- WIFI_RECONNECT_MAX_ATTEMPTS from Networking.h line 24. -/
def WIFI_RECONNECT_MAX_ATTEMPTS : Nat := 5

/-- NTP_SYNC_INTERVAL from Networking.h line 117 (1 hour in ms). -/
def NTP_SYNC_INTERVAL : Nat := 3600000

/-- Modulus of the 32-bit unsigned arithmetic used by millis(). -/
def UINT32_MOD : Nat := 4294967296

/-- 32-bit wrap-around subtraction, as computed by the C expression
millis() - lastTimestamp on unsigned long values. -/
def sub32 (a b : Nat) : Nat := (a % UINT32_MOD + UINT32_MOD - b % UINT32_MOD) % UINT32_MOD

/-- A sink (Stream side of serial, or the telnet WiFiClient): bytes already
drained to the wire by a sink-level flush, and bytes written to the sink but
still inside its own buffering. -/
structure Sink where
  delivered : List Nat
  pending : List Nat
deriving Repr, DecidableEq

/-- Sink write: the bytes join the sink pending queue. -/
def Sink.write (s : Sink) (bs : List Nat) : Sink :=
  { s with pending := s.pending ++ bs }

/-- Sink-level flush: everything pending is drained to the wire. -/
def Sink.drain (s : Sink) : Sink :=
  { delivered := s.delivered ++ s.pending, pending := [] }

/-- All bytes the sink has observed (drained or still pending), in order. -/
def Sink.observed (s : Sink) : List Nat := s.delivered ++ s.pending

/-- State of the MultiStream multiplexer: the internal buffer contents
(buffer.length is the fill cursor bufferIndex), the two sinks, whether the
telnet client is attached and connected, and the critical-section flag. -/
structure MultiStream where
  buffer : List Nat
  serial : Sink
  telnet : Sink
  telnetConnected : Bool
  inCriticalSection : Bool
deriving Repr, DecidableEq

/-- MultiStream.flushBuffer (Networking.cpp lines 77-106): if the buffer is
nonempty, write its contents to the serial sink and, when connected, to the
telnet sink; when not in a critical section additionally drain each of those
sinks; then clear the buffer. -/
def MultiStream.flushBuffer (ms : MultiStream) : MultiStream :=
  if 0 < ms.buffer.length then
    { ms with
      buffer := []
      serial :=
        if ms.inCriticalSection then ms.serial.write ms.buffer
        else (ms.serial.write ms.buffer).drain
      telnet :=
        if ms.telnetConnected then
          (if ms.inCriticalSection then ms.telnet.write ms.buffer
           else (ms.telnet.write ms.buffer).drain)
        else ms.telnet }
  else ms

/-- MultiStream.write(uint8_t) (Networking.cpp lines 23-35): append the byte
to the buffer; if the fill cursor reached BUFFER_SIZE - 1 or the byte is the
line terminator, flush the buffer. Returns 1. -/
def MultiStream.writeByte (ms : MultiStream) (c : Nat) : MultiStream × Nat :=
  let ms1 := { ms with buffer := ms.buffer ++ [c] }
  if BUFFER_SIZE - 1 ≤ ms1.buffer.length ∨ c = NEWLINE then (ms1.flushBuffer, 1)
  else (ms1, 1)

/-- MultiStream.write(const uint8_t*, size_t) (Networking.cpp lines 45-72):
flush the internal buffer if nonempty, then write the block directly to the
serial sink and, when connected, to the telnet sink; when not in a critical
section drain both live sinks. Returns the block length. -/
def MultiStream.writeN (ms : MultiStream) (bs : List Nat) : MultiStream × Nat :=
  let ms1 := if 0 < ms.buffer.length then ms.flushBuffer else ms
  ({ ms1 with
     serial :=
       if ms1.inCriticalSection then ms1.serial.write bs
       else (ms1.serial.write bs).drain
     telnet :=
       if ms1.telnetConnected then
         (if ms1.inCriticalSection then ms1.telnet.write bs
          else (ms1.telnet.write bs).drain)
       else ms1.telnet },
   bs.length)

/-- MultiStream.flush (Networking.cpp lines 111-123): flush the internal
buffer, then drain the serial sink and, when connected, the telnet sink. -/
def MultiStream.flush (ms : MultiStream) : MultiStream :=
  let ms1 := ms.flushBuffer
  { ms1 with
    serial := ms1.serial.drain
    telnet := if ms1.telnetConnected then ms1.telnet.drain else ms1.telnet }

/-- MultiStream.beginCriticalSection (Networking.cpp lines 129-132). -/
def MultiStream.beginCriticalSection (ms : MultiStream) : MultiStream :=
  { ms with inCriticalSection := true }

/-- MultiStream.endCriticalSection (Networking.cpp lines 137-141): clear the
flag, then perform a full flush. -/
def MultiStream.endCriticalSection (ms : MultiStream) : MultiStream :=
  ({ ms with inCriticalSection := false }).flush

/-- One operation on the multiplexer. -/
inductive MSOp where
  | wByte (c : Nat)
  | wBlock (bs : List Nat)
  | doFlush
  | beginCS
  | endCS
deriving Repr, DecidableEq

/-- Whether the operation is one of the two write calls. -/
def MSOp.isWrite : MSOp → Bool
  | .wByte _ => true
  | .wBlock _ => true
  | _ => false

/-- The bytes an operation writes. -/
def MSOp.bytes : MSOp → List Nat
  | .wByte c => [c]
  | .wBlock bs => bs
  | _ => []

/-- The bytes a list of operations writes, in order. -/
def opsBytes : List MSOp → List Nat
  | [] => []
  | op :: rest => op.bytes ++ opsBytes rest

/-- Execute one multiplexer operation (state part). -/
def MultiStream.step (ms : MultiStream) : MSOp → MultiStream
  | .wByte c => (ms.writeByte c).1
  | .wBlock bs => (ms.writeN bs).1
  | .doFlush => ms.flush
  | .beginCS => ms.beginCriticalSection
  | .endCS => ms.endCriticalSection

/-- Execute a list of multiplexer operations in order. -/
def MultiStream.run : MultiStream → List MSOp → MultiStream
  | ms, [] => ms
  | ms, op :: rest => MultiStream.run (ms.step op) rest

/-- WiFi reconnect bookkeeping of the Networking class: the isReconnecting
guard and the reconnectAttempts counter (Networking.h lines 73-74). -/
structure WifiState where
  isReconnecting : Bool
  reconnectAttempts : Nat
deriving Repr, DecidableEq

/-- The state after the Networking constructor (Networking.cpp line 159). -/
def initWifiState : WifiState :=
  { isReconnecting := false, reconnectAttempts := 0 }

/-- Link events delivered to the WiFi event handlers. -/
inductive WifiEvent where
  | disconnected
  | gotIP
deriving Repr, DecidableEq

/-- State-changing actions the reconnect logic performs: a
disconnect/delay/begin retry sequence started by an event handler (tagged
with the attempt number it logs), a device restart, or the
disconnect/delay/begin sequence started by reconnectWiFi. -/
inductive WifiAction where
  | retryBegin (attemptNo : Nat)
  | restart
  | manualRetry
deriving Repr, DecidableEq

/-- Networking::_onStationModeDisconnected (Networking.cpp lines 423-454),
identical in the reconnect logic to the ESP32 branch of setupWiFiEvents
(lines 359-385): if not already reconnecting, set the guard; then either
start a retry sequence and increment the counter (when below the maximum) or
restart the device. The instance and multiStream pointers are assumed
non-null, as set up by Networking::begin. -/
def onStationModeDisconnected (st : WifiState) : WifiState × List WifiAction :=
  if st.isReconnecting = false then
    if st.reconnectAttempts < WIFI_RECONNECT_MAX_ATTEMPTS then
      ({ isReconnecting := true, reconnectAttempts := st.reconnectAttempts + 1 },
       [.retryBegin (st.reconnectAttempts + 1)])
    else
      ({ st with isReconnecting := true }, [.restart])
  else
    (st, [])

/-- Networking::_onStationModeGotIP (Networking.cpp lines 461-472),
identical in the reconnect logic to the ESP32 got-IP branch (lines 387-394):
clear the guard and reset the counter. -/
def onStationModeGotIP (st : WifiState) : WifiState × List WifiAction :=
  ({ isReconnecting := false, reconnectAttempts := 0 }, [])

/-- Dispatch one link event to its handler. -/
def wifiStep (st : WifiState) : WifiEvent → WifiState × List WifiAction
  | .disconnected => onStationModeDisconnected st
  | .gotIP => onStationModeGotIP st

/-- Deliver a sequence of link events, accumulating the actions. -/
def wifiRun (st : WifiState) : List WifiEvent → WifiState × List WifiAction
  | [] => (st, [])
  | e :: rest =>
    let p := wifiStep st e
    let q := wifiRun p.1 rest
    (q.1, p.2 ++ q.2)

/-- Networking::reconnectWiFi (Networking.cpp lines 642-678): if not already
reconnecting, set the guard, run one disconnect/delay/begin sequence, poll
the link for up to 20 half-second intervals (the outcome of that wait is the
oracle waitSucceeds), and clear the guard only on success; if already
reconnecting, only print a message. The attempts counter is never touched. -/
def reconnectWiFi (st : WifiState) (waitSucceeds : Bool) : WifiState × List WifiAction :=
  if st.isReconnecting = false then
    if waitSucceeds then
      ({ st with isReconnecting := false }, [.manualRetry])
    else
      ({ st with isReconnecting := true }, [.manualRetry])
  else
    (st, [])

/-- A telnet client handle: its identity and whether it is connected. A
WiFiClient that tests false (no attached socket) is modelled as Option.none
at the use sites. -/
structure Client where
  id : Nat
  connected : Bool
deriving Repr, DecidableEq

/-- Observable actions of the telnet-session part of Networking::loop. -/
inductive TelnetAction where
  | displacedMsg (toId : Nat)
  | stopClient (id : Nat)
  | welcomeMsg (toId : Nat)
deriving Repr, DecidableEq

/-- The telnet-session slice of Networking::loop (Networking.cpp lines
601-622): when the server has a pending client, notify and stop the old
client if it is present and connected, then assign and welcome the new one;
afterwards, stop the retained client if it is present but no longer
connected. hasPending models telnetServer->hasClient() and newC the client
returned by available(). -/
def telnetTick (cur : Option Client) (hasPending : Bool) (newC : Client) :
    Option Client × List TelnetAction :=
  let p :=
    if hasPending then
      match cur with
      | some c =>
        if c.connected then
          (some newC, [TelnetAction.displacedMsg c.id, TelnetAction.stopClient c.id,
                       TelnetAction.welcomeMsg newC.id])
        else (some newC, [TelnetAction.welcomeMsg newC.id])
      | none => (some newC, [TelnetAction.welcomeMsg newC.id])
    else (cur, [])
  match p.1 with
  | some c =>
    if c.connected = false then (none, p.2 ++ [TelnetAction.stopClient c.id])
    else (p.1, p.2)
  | none => (p.1, p.2)

/-- NTP bookkeeping of the Networking class plus the ambient observations a
tick makes: posixString and lastNtpSync are fields (Networking.h lines
115-116), connected is the value WiFi.status() == WL_CONNECTED would report
at that moment, clock the value time(nullptr) would report. -/
structure NtpState where
  posixString : Option String
  lastNtpSync : Nat
  connected : Bool
  clock : Nat
deriving Repr, DecidableEq

/-- The NTP state after the Networking constructor: posixString null,
lastNtpSync 0 (Networking.cpp line 158), with ambient clock and link
observations supplied. -/
def initNtpState (connected : Bool) (clock : Nat) : NtpState :=
  { posixString := none, lastNtpSync := 0, connected := connected, clock := clock }

/-- The periodic-NTP-sync slice of Networking::loop (Networking.cpp lines
625-633): when posixString is set and the 32-bit difference millis() -
lastNtpSync has reached NTP_SYNC_INTERVAL, call configTime/configTzTime (the
returned Bool, true = resync performed) and set lastNtpSync to millis().
now is the value of millis() at the tick. -/
def ntpLoopTick (st : NtpState) (now : Nat) : NtpState × Bool :=
  if st.posixString.isSome = true ∧ NTP_SYNC_INTERVAL ≤ sub32 now st.lastNtpSync then
    ({ st with lastNtpSync := now % UINT32_MOD }, true)
  else
    (st, false)

/-- Networking::ntpStart (Networking.cpp lines 728-767): fail immediately
when the link is down; otherwise record the posix string, configure the
clock source, and wait up to 5 seconds for the clock to pass 1000000.
clockAfterWait is the oracle for the value time(nullptr) holds after that
wait; on success lastNtpSync is set to millis() (= now). -/
def ntpStart (st : NtpState) (posix : String) (now clockAfterWait : Nat) :
    NtpState × Bool :=
  if st.connected = false then (st, false)
  else
    let st1 := { st with posixString := some posix, clock := clockAfterWait }
    if 1000000 < clockAfterWait then
      ({ st1 with lastNtpSync := now % UINT32_MOD }, true)
    else (st1, false)

/-- Networking::ntpGetEpoch (Networking.cpp lines 775-793): with an override
timezone, return time(nullptr); with no override and no stored posixString,
return 0; otherwise return time(nullptr). The setenv/tzset environment
effects only influence the external formatter and are not modelled. -/
def ntpGetEpoch (st : NtpState) (tz : Option String) : Nat :=
  match tz with
  | some _ => st.clock
  | none => if st.posixString.isSome = true then st.clock else 0

/-- Common shape of Networking::ntpGetDate, ntpGetDateDMY, ntpGetTime,
ntpGetDateTime and ntpGetDateTimeDMY (Networking.cpp lines 801-888), which
differ only in the strftime format string: compute the epoch, return the
null sentinel (none) when it is 0, and otherwise the formatted string. The
external strftime/localtime formatter is the parameter strf. -/
def ntpFormatted (strf : Nat → String) (st : NtpState) (tz : Option String) :
    Option String :=
  let now := ntpGetEpoch st tz
  if now = 0 then none else some (strf now)

/-- Concrete multiplexer state used by the claim C4 counterexample: inside a
critical section, one byte (65) already buffered, both sinks empty, telnet
not connected. -/
def msC4 : MultiStream :=
  { buffer := [65]
    serial := { delivered := [], pending := [] }
    telnet := { delivered := [], pending := [] }
    telnetConnected := false
    inCriticalSection := true }

/-- Concrete multiplexer state used by witnesses: empty buffer, empty
sinks, telnet connected, not in a critical section. -/
def msW : MultiStream :=
  { buffer := []
    serial := { delivered := [], pending := [] }
    telnet := { delivered := [], pending := [] }
    telnetConnected := true
    inCriticalSection := false }

/-- Concrete NTP state used by the claim C8 counterexample: posixString
configured, gate interval elapsed since lastNtpSync 0, link down. -/
def stC8 : NtpState :=
  { posixString := some "UTC0", lastNtpSync := 0, connected := false, clock := 0 }

/-- Concrete NTP state used by the claim C9 counterexample: fresh state with
the link up and a small pre-sync clock value. -/
def stC9 : NtpState :=
  { posixString := none, lastNtpSync := 0, connected := true, clock := 500 }

/-- Writing to a sink extends its observed byte stream. -/
theorem Sink.observed_write (s : Sink) (bs : List Nat) :
    (s.write bs).observed = s.observed ++ bs := by
  simp [Sink.write, Sink.observed, List.append_assoc]

/-- Draining a sink does not change its observed byte stream. -/
theorem Sink.observed_drain (s : Sink) : s.drain.observed = s.observed := by
  simp [Sink.drain, Sink.observed]

theorem Sink.delivered_drain (s : Sink) : s.drain.delivered = s.observed := rfl

theorem Sink.pending_drain (s : Sink) : s.drain.pending = [] := rfl

theorem Sink.delivered_write (s : Sink) (bs : List Nat) :
    (s.write bs).delivered = s.delivered := rfl

/-- flushBuffer always leaves the internal buffer empty. -/
theorem MultiStream.flushBuffer_buffer (ms : MultiStream) : ms.flushBuffer.buffer = [] := by
  unfold MultiStream.flushBuffer
  split
  · rfl
  · next h => exact List.length_eq_zero.mp (Nat.eq_zero_of_not_pos h)

theorem MultiStream.flushBuffer_telnetConnected (ms : MultiStream) :
    ms.flushBuffer.telnetConnected = ms.telnetConnected := by
  unfold MultiStream.flushBuffer
  split <;> rfl

theorem MultiStream.flushBuffer_inCriticalSection (ms : MultiStream) :
    ms.flushBuffer.inCriticalSection = ms.inCriticalSection := by
  unfold MultiStream.flushBuffer
  split <;> rfl

/-- flushBuffer moves the buffer contents onto the serial observed stream. -/
theorem MultiStream.flushBuffer_serial_observed (ms : MultiStream) :
    ms.flushBuffer.serial.observed = ms.serial.observed ++ ms.buffer := by
  unfold MultiStream.flushBuffer
  split
  · split <;> simp [Sink.observed_write, Sink.observed_drain]
  · next h => simp [List.length_eq_zero.mp (Nat.eq_zero_of_not_pos h)]

/-- flushBuffer moves the buffer contents onto the telnet observed stream
when the telnet client is connected. -/
theorem MultiStream.flushBuffer_telnet_observed (ms : MultiStream)
    (h : ms.telnetConnected = true) :
    ms.flushBuffer.telnet.observed = ms.telnet.observed ++ ms.buffer := by
  unfold MultiStream.flushBuffer
  split
  · simp only [h, if_true]
    split <;> simp [Sink.observed_write, Sink.observed_drain]
  · next hl => simp [List.length_eq_zero.mp (Nat.eq_zero_of_not_pos hl)]

/-- flushBuffer does not touch the telnet sink when it is not connected. -/
theorem MultiStream.flushBuffer_telnet_of_not_connected (ms : MultiStream)
    (h : ms.telnetConnected = false) :
    ms.flushBuffer.telnet = ms.telnet := by
  unfold MultiStream.flushBuffer
  split
  · simp [h]
  · rfl

/-- In a critical section, flushBuffer performs no serial sink drain. -/
theorem MultiStream.flushBuffer_serial_delivered_of_crit (ms : MultiStream)
    (h : ms.inCriticalSection = true) :
    ms.flushBuffer.serial.delivered = ms.serial.delivered := by
  unfold MultiStream.flushBuffer
  split
  · simp [h, Sink.delivered_write]
  · rfl

/-- In a critical section, flushBuffer performs no telnet sink drain. -/
theorem MultiStream.flushBuffer_telnet_delivered_of_crit (ms : MultiStream)
    (h : ms.inCriticalSection = true) :
    ms.flushBuffer.telnet.delivered = ms.telnet.delivered := by
  unfold MultiStream.flushBuffer
  split
  · split <;> simp [h, Sink.delivered_write]
  · rfl

/-- Outside a critical section, flushBuffer on a nonempty buffer drains the
serial sink: everything previously pending plus the buffer is delivered. -/
theorem MultiStream.flushBuffer_serial_of_not_crit (ms : MultiStream)
    (hc : ms.inCriticalSection = false) (hb : 0 < ms.buffer.length) :
    ms.flushBuffer.serial.delivered = ms.serial.delivered ++ ms.serial.pending ++ ms.buffer ∧
    ms.flushBuffer.serial.pending = [] := by
  unfold MultiStream.flushBuffer
  rw [if_pos hb]
  simp [hc, Sink.drain, Sink.write, Sink.observed, List.append_assoc]

/-- MultiStream.flush leaves the buffer empty. -/
theorem MultiStream.flush_buffer (ms : MultiStream) : ms.flush.buffer = [] := by
  unfold MultiStream.flush
  simp [MultiStream.flushBuffer_buffer]

theorem MultiStream.flush_telnetConnected (ms : MultiStream) :
    ms.flush.telnetConnected = ms.telnetConnected := by
  unfold MultiStream.flush
  simp [MultiStream.flushBuffer_telnetConnected]

theorem MultiStream.flush_inCriticalSection (ms : MultiStream) :
    ms.flush.inCriticalSection = ms.inCriticalSection := by
  unfold MultiStream.flush
  simp [MultiStream.flushBuffer_inCriticalSection]

/-- MultiStream.flush delivers the whole serial observed stream plus the
buffer contents. -/
theorem MultiStream.flush_serial_delivered (ms : MultiStream) :
    ms.flush.serial.delivered = ms.serial.observed ++ ms.buffer := by
  unfold MultiStream.flush
  simp [Sink.delivered_drain, MultiStream.flushBuffer_serial_observed]

theorem MultiStream.flush_serial_pending (ms : MultiStream) :
    ms.flush.serial.pending = [] := by
  unfold MultiStream.flush
  simp [Sink.pending_drain]

theorem MultiStream.flush_serial_observed (ms : MultiStream) :
    ms.flush.serial.observed = ms.serial.observed ++ ms.buffer := by
  simp [Sink.observed, MultiStream.flush_serial_delivered, MultiStream.flush_serial_pending]

/-- MultiStream.flush delivers the whole telnet observed stream plus the
buffer contents when the telnet client is connected. -/
theorem MultiStream.flush_telnet_delivered (ms : MultiStream)
    (h : ms.telnetConnected = true) :
    ms.flush.telnet.delivered = ms.telnet.observed ++ ms.buffer := by
  unfold MultiStream.flush
  simp [MultiStream.flushBuffer_telnetConnected, h, Sink.delivered_drain,
    MultiStream.flushBuffer_telnet_observed ms h]

theorem MultiStream.flush_telnet_pending (ms : MultiStream)
    (h : ms.telnetConnected = true) :
    ms.flush.telnet.pending = [] := by
  unfold MultiStream.flush
  simp [MultiStream.flushBuffer_telnetConnected, h, Sink.pending_drain]

theorem MultiStream.flush_telnet_observed (ms : MultiStream)
    (h : ms.telnetConnected = true) :
    ms.flush.telnet.observed = ms.telnet.observed ++ ms.buffer := by
  simp [Sink.observed, MultiStream.flush_telnet_delivered ms h,
    MultiStream.flush_telnet_pending ms h]

/-- MultiStream.flush does not touch the telnet sink when not connected. -/
theorem MultiStream.flush_telnet_of_not_connected (ms : MultiStream)
    (h : ms.telnetConnected = false) :
    ms.flush.telnet = ms.telnet := by
  unfold MultiStream.flush
  simp [MultiStream.flushBuffer_telnetConnected, h,
    MultiStream.flushBuffer_telnet_of_not_connected ms h]

theorem MultiStream.writeByte_telnetConnected (ms : MultiStream) (c : Nat) :
    (ms.writeByte c).1.telnetConnected = ms.telnetConnected := by
  simp only [MultiStream.writeByte]
  split
  · simp [MultiStream.flushBuffer_telnetConnected]
  · rfl

theorem MultiStream.writeByte_inCriticalSection (ms : MultiStream) (c : Nat) :
    (ms.writeByte c).1.inCriticalSection = ms.inCriticalSection := by
  simp only [MultiStream.writeByte]
  split
  · simp [MultiStream.flushBuffer_inCriticalSection]
  · rfl

theorem MultiStream.writeN_telnetConnected (ms : MultiStream) (bs : List Nat) :
    (ms.writeN bs).1.telnetConnected = ms.telnetConnected := by
  simp only [MultiStream.writeN]
  split
  · simp [MultiStream.flushBuffer_telnetConnected]
  · rfl

theorem MultiStream.writeN_inCriticalSection (ms : MultiStream) (bs : List Nat) :
    (ms.writeN bs).1.inCriticalSection = ms.inCriticalSection := by
  simp only [MultiStream.writeN]
  split
  · simp [MultiStream.flushBuffer_inCriticalSection]
  · rfl

/-- No multiplexer operation changes the telnet-connected observation. -/
theorem MultiStream.step_telnetConnected (ms : MultiStream) (op : MSOp) :
    (ms.step op).telnetConnected = ms.telnetConnected := by
  cases op with
  | wByte c => exact MultiStream.writeByte_telnetConnected ms c
  | wBlock bs => exact MultiStream.writeN_telnetConnected ms bs
  | doFlush => exact MultiStream.flush_telnetConnected ms
  | beginCS => rfl
  | endCS => exact MultiStream.flush_telnetConnected _

/-- Every step extends the serial observed stream plus the buffer by exactly
the bytes the operation writes, in order. -/
theorem MultiStream.step_serial_observed (ms : MultiStream) (op : MSOp) :
    (ms.step op).serial.observed ++ (ms.step op).buffer
      = ms.serial.observed ++ ms.buffer ++ op.bytes := by
  cases op with
  | wByte c =>
    simp only [MultiStream.step, MultiStream.writeByte, MSOp.bytes]
    split
    · simp [MultiStream.flushBuffer_serial_observed, MultiStream.flushBuffer_buffer,
        List.append_assoc]
    · simp [List.append_assoc]
  | wBlock bs =>
    simp only [MultiStream.step, MultiStream.writeN, MSOp.bytes]
    split
    · split <;>
        simp [Sink.observed_write, Sink.observed_drain,
          MultiStream.flushBuffer_serial_observed, MultiStream.flushBuffer_buffer,
          List.append_assoc]
    · next h =>
      have hb : ms.buffer = [] := List.length_eq_zero.mp (Nat.eq_zero_of_not_pos h)
      split <;> simp [Sink.observed_write, Sink.observed_drain, hb]
  | doFlush =>
    simp [MultiStream.step, MSOp.bytes, MultiStream.flush_serial_observed,
      MultiStream.flush_buffer]
  | beginCS =>
    simp [MultiStream.step, MSOp.bytes, MultiStream.beginCriticalSection]
  | endCS =>
    simp [MultiStream.step, MSOp.bytes, MultiStream.endCriticalSection,
      MultiStream.flush_serial_observed, MultiStream.flush_buffer]

/-- Writing then possibly draining a sink always extends its observed
stream by the written bytes. -/
theorem Sink.observed_ite_drain (s : Sink) (bs : List Nat) (b : Bool) :
    (if b = true then s.write bs else (s.write bs).drain).observed
      = s.observed ++ bs := by
  cases b <;> simp [Sink.observed_write, Sink.observed_drain]

/-- Every step extends the telnet observed stream plus the buffer by exactly
the bytes the operation writes, when the telnet client is connected. -/
theorem MultiStream.step_telnet_observed (ms : MultiStream) (op : MSOp)
    (h : ms.telnetConnected = true) :
    (ms.step op).telnet.observed ++ (ms.step op).buffer
      = ms.telnet.observed ++ ms.buffer ++ op.bytes := by
  cases op with
  | wByte c =>
    have h2 : ({ ms with buffer := ms.buffer ++ [c] } : MultiStream).telnetConnected = true := h
    simp only [MultiStream.step, MultiStream.writeByte, MSOp.bytes]
    split
    · simp [MultiStream.flushBuffer_buffer, MultiStream.flushBuffer_telnet_observed _ h2,
        List.append_assoc]
    · simp [List.append_assoc]
  | wBlock bs =>
    simp only [MultiStream.step, MultiStream.writeN, MSOp.bytes]
    by_cases hbl : 0 < ms.buffer.length
    · have h2 : ms.flushBuffer.telnetConnected = true := by
        rw [MultiStream.flushBuffer_telnetConnected]; exact h
      simp [hbl, h2, Sink.observed_ite_drain,
        MultiStream.flushBuffer_telnet_observed _ h, MultiStream.flushBuffer_buffer,
        List.append_assoc]
    · have hb : ms.buffer = [] := List.length_eq_zero.mp (Nat.eq_zero_of_not_pos hbl)
      simp [hbl, h, hb, Sink.observed_ite_drain]
  | doFlush =>
    simp [MultiStream.step, MSOp.bytes, MultiStream.flush_telnet_observed ms h,
      MultiStream.flush_buffer]
  | beginCS =>
    simp [MultiStream.step, MSOp.bytes, MultiStream.beginCriticalSection]
  | endCS =>
    have h2 : ({ ms with inCriticalSection := false } : MultiStream).telnetConnected = true := h
    simp [MultiStream.step, MSOp.bytes, MultiStream.endCriticalSection,
      MultiStream.flush_telnet_observed _ h2, MultiStream.flush_buffer]

theorem MultiStream.writeByte_serial_delivered_of_crit (ms : MultiStream) (c : Nat)
    (hc : ms.inCriticalSection = true) :
    (ms.writeByte c).1.serial.delivered = ms.serial.delivered := by
  simp only [MultiStream.writeByte]
  split
  · exact MultiStream.flushBuffer_serial_delivered_of_crit _ hc
  · rfl

theorem MultiStream.writeByte_telnet_delivered_of_crit (ms : MultiStream) (c : Nat)
    (hc : ms.inCriticalSection = true) :
    (ms.writeByte c).1.telnet.delivered = ms.telnet.delivered := by
  simp only [MultiStream.writeByte]
  split
  · exact MultiStream.flushBuffer_telnet_delivered_of_crit _ hc
  · rfl

theorem MultiStream.writeN_serial_delivered_of_crit (ms : MultiStream) (bs : List Nat)
    (hc : ms.inCriticalSection = true) :
    (ms.writeN bs).1.serial.delivered = ms.serial.delivered := by
  simp only [MultiStream.writeN]
  split
  · have h1 : ms.flushBuffer.inCriticalSection = true := by
      rw [MultiStream.flushBuffer_inCriticalSection]; exact hc
    simp [h1, Sink.delivered_write, MultiStream.flushBuffer_serial_delivered_of_crit _ hc]
  · simp [hc, Sink.delivered_write]

theorem MultiStream.writeN_telnet_delivered_of_crit (ms : MultiStream) (bs : List Nat)
    (hc : ms.inCriticalSection = true) :
    (ms.writeN bs).1.telnet.delivered = ms.telnet.delivered := by
  simp only [MultiStream.writeN]
  split
  · have h1 : ms.flushBuffer.inCriticalSection = true := by
      rw [MultiStream.flushBuffer_inCriticalSection]; exact hc
    split <;>
      simp [h1, Sink.delivered_write, MultiStream.flushBuffer_telnet_delivered_of_crit _ hc]
  · split <;> simp [hc, Sink.delivered_write]

/-- Running any operation sequence never changes the telnet-connected
observation. -/
theorem MultiStream.run_telnetConnected :
    ∀ (ops : List MSOp) (ms : MultiStream),
      (ms.run ops).telnetConnected = ms.telnetConnected := by
  intro ops
  induction ops with
  | nil => intro ms; rfl
  | cons op rest ih =>
    intro ms
    show (MultiStream.run (ms.step op) rest).telnetConnected = _
    rw [ih (ms.step op), MultiStream.step_telnetConnected]

/-- Global ordering invariant for the serial sink: across any operation
sequence, the serial observed stream followed by the buffer contents equals
the initial one followed by all bytes written, in original order. -/
theorem MultiStream.run_serial_observed :
    ∀ (ops : List MSOp) (ms : MultiStream),
      (ms.run ops).serial.observed ++ (ms.run ops).buffer
        = ms.serial.observed ++ ms.buffer ++ opsBytes ops := by
  intro ops
  induction ops with
  | nil => intro ms; simp [MultiStream.run, opsBytes]
  | cons op rest ih =>
    intro ms
    show (MultiStream.run (ms.step op) rest).serial.observed
        ++ (MultiStream.run (ms.step op) rest).buffer = _
    rw [ih (ms.step op), MultiStream.step_serial_observed]
    simp [opsBytes, List.append_assoc]

/-- Global ordering invariant for the telnet sink while it is connected. -/
theorem MultiStream.run_telnet_observed :
    ∀ (ops : List MSOp) (ms : MultiStream), ms.telnetConnected = true →
      (ms.run ops).telnet.observed ++ (ms.run ops).buffer
        = ms.telnet.observed ++ ms.buffer ++ opsBytes ops := by
  intro ops
  induction ops with
  | nil => intro ms _; simp [MultiStream.run, opsBytes]
  | cons op rest ih =>
    intro ms h
    have h2 : (ms.step op).telnetConnected = true := by
      rw [MultiStream.step_telnetConnected]; exact h
    show (MultiStream.run (ms.step op) rest).telnet.observed
        ++ (MultiStream.run (ms.step op) rest).buffer = _
    rw [ih (ms.step op) h2, MultiStream.step_telnet_observed ms op h]
    simp [opsBytes, List.append_assoc]

/-- During a critical section, running write operations never drains either
sink: the delivered streams stay unchanged, and the section stays open. -/
theorem MultiStream.run_delivered_of_crit :
    ∀ (ops : List MSOp) (ms : MultiStream), ms.inCriticalSection = true →
      (∀ op ∈ ops, op.isWrite = true) →
      (ms.run ops).serial.delivered = ms.serial.delivered ∧
      (ms.run ops).telnet.delivered = ms.telnet.delivered ∧
      (ms.run ops).inCriticalSection = true := by
  intro ops
  induction ops with
  | nil => intro ms hc _; exact ⟨rfl, rfl, hc⟩
  | cons op rest ih =>
    intro ms hc hw
    have hop := hw op (List.mem_cons_self _ _)
    have hrest : ∀ o ∈ rest, o.isWrite = true := fun o ho => hw o (List.mem_cons_of_mem _ ho)
    cases op with
    | wByte c =>
      have h3 : ((ms.writeByte c).1).inCriticalSection = true := by
        rw [MultiStream.writeByte_inCriticalSection]; exact hc
      obtain ⟨a1, a2, a3⟩ := ih ((ms.writeByte c).1) h3 hrest
      refine ⟨?_, ?_, a3⟩
      · show (MultiStream.run ((ms.writeByte c).1) rest).serial.delivered = _
        rw [a1, MultiStream.writeByte_serial_delivered_of_crit ms c hc]
      · show (MultiStream.run ((ms.writeByte c).1) rest).telnet.delivered = _
        rw [a2, MultiStream.writeByte_telnet_delivered_of_crit ms c hc]
    | wBlock bs =>
      have h3 : ((ms.writeN bs).1).inCriticalSection = true := by
        rw [MultiStream.writeN_inCriticalSection]; exact hc
      obtain ⟨a1, a2, a3⟩ := ih ((ms.writeN bs).1) h3 hrest
      refine ⟨?_, ?_, a3⟩
      · show (MultiStream.run ((ms.writeN bs).1) rest).serial.delivered = _
        rw [a1, MultiStream.writeN_serial_delivered_of_crit ms bs hc]
      · show (MultiStream.run ((ms.writeN bs).1) rest).telnet.delivered = _
        rw [a2, MultiStream.writeN_telnet_delivered_of_crit ms bs hc]
    | doFlush => simp [MSOp.isWrite] at hop
    | beginCS => simp [MSOp.isWrite] at hop
    | endCS => simp [MSOp.isWrite] at hop

/-- One event handler step keeps the attempt counter at or below the
maximum. -/
theorem wifiStep_attempts_le (st : WifiState) (e : WifiEvent)
    (h : st.reconnectAttempts ≤ WIFI_RECONNECT_MAX_ATTEMPTS) :
    (wifiStep st e).1.reconnectAttempts ≤ WIFI_RECONNECT_MAX_ATTEMPTS := by
  cases e with
  | disconnected =>
    simp only [wifiStep, onStationModeDisconnected]
    split
    · split
      · next hlt => exact hlt
      · exact h
    · exact h
  | gotIP => simp [wifiStep, onStationModeGotIP]

/-- Event runs keep the attempt counter at or below the maximum. -/
theorem wifiRun_attempts_le :
    ∀ (es : List WifiEvent) (st : WifiState),
      st.reconnectAttempts ≤ WIFI_RECONNECT_MAX_ATTEMPTS →
      (wifiRun st es).1.reconnectAttempts ≤ WIFI_RECONNECT_MAX_ATTEMPTS := by
  intro es
  induction es with
  | nil => intro st h; exact h
  | cons e rest ih => intro st h; exact ih _ (wifiStep_attempts_le st e h)

/-- While the reconnect guard is set, link-down events are ignored. -/
theorem wifiRun_disconnects_of_reconnecting :
    ∀ (n : Nat) (st : WifiState), st.isReconnecting = true →
      wifiRun st (List.replicate n WifiEvent.disconnected) = (st, []) := by
  intro n
  induction n with
  | zero => intro st _; rfl
  | succ k ih =>
    intro st h
    have hstep : wifiStep st WifiEvent.disconnected = (st, []) := by
      simp [wifiStep, onStationModeDisconnected, h]
    simp [List.replicate_succ, wifiRun, hstep, ih st h]

/-- Claim C1: over every sequence of link-down and got-IP events delivered
to the WiFi event handlers, the reconnect attempt counter stays at or below
WIFI_RECONNECT_MAX_ATTEMPTS (it is a Nat, so it is also at least 0), and
every got-IP event resets it to 0 and clears the reconnecting guard before
any later event can increment it again. -/
theorem claim_C1 (st : WifiState) (es : List WifiEvent)
    (h : st.reconnectAttempts ≤ WIFI_RECONNECT_MAX_ATTEMPTS) :
    (wifiRun st es).1.reconnectAttempts ≤ WIFI_RECONNECT_MAX_ATTEMPTS ∧
    ∀ st2 : WifiState,
      (wifiStep st2 WifiEvent.gotIP).1.reconnectAttempts = 0 ∧
      (wifiStep st2 WifiEvent.gotIP).1.isReconnecting = false :=
  ⟨wifiRun_attempts_le es st h, fun _ => ⟨rfl, rfl⟩⟩

theorem claim_C1_witness :
    initWifiState.reconnectAttempts ≤ WIFI_RECONNECT_MAX_ATTEMPTS ∧
    (wifiRun initWifiState
        [WifiEvent.disconnected, WifiEvent.gotIP, WifiEvent.disconnected,
         WifiEvent.disconnected]).1.reconnectAttempts
      ≤ WIFI_RECONNECT_MAX_ATTEMPTS :=
  ⟨by decide,
   (claim_C1 initWifiState
      [WifiEvent.disconnected, WifiEvent.gotIP, WifiEvent.disconnected,
       WifiEvent.disconnected] (by decide)).1⟩

/-- Claim C2 (code evaluated at the failing input): in an episode where the
link goes down and never comes back (any number of consecutive link-down
events, no got-IP), the handlers run exactly one disconnect/delay/begin
retry sequence and never reach the restart branch: the isReconnecting guard
set by the first event is never cleared on failure, so attempts 2..5 and
the max-attempts restart are unreachable, contrary to the claimed behavior
of WIFI_RECONNECT_MAX_ATTEMPTS attempts followed by exactly one restart. -/
theorem claim_C2 (n : Nat) :
    wifiRun initWifiState (List.replicate (n + 1) WifiEvent.disconnected)
      = ({ isReconnecting := true, reconnectAttempts := 1 },
         [WifiAction.retryBegin 1]) := by
  have hstep : wifiStep initWifiState WifiEvent.disconnected
      = ({ isReconnecting := true, reconnectAttempts := 1 },
         [WifiAction.retryBegin 1]) := by decide
  have hrest := wifiRun_disconnects_of_reconnecting n
      ({ isReconnecting := true, reconnectAttempts := 1 } : WifiState) rfl
  simp [List.replicate_succ, wifiRun, hstep, hrest]

/-- Claim C3: while a reconnection is in progress (isReconnecting is true),
a further link-down event and a manual reconnectWiFi call (whatever its
wait outcome) leave the state unchanged, do not touch the attempt counter,
and start no retry sequence (empty action list). -/
theorem claim_C3 (st : WifiState) (b : Bool) (h : st.isReconnecting = true) :
    wifiStep st WifiEvent.disconnected = (st, []) ∧
    reconnectWiFi st b = (st, []) := by
  constructor
  · simp [wifiStep, onStationModeDisconnected, h]
  · simp [reconnectWiFi, h]

theorem claim_C3_witness :
    ({ isReconnecting := true, reconnectAttempts := 2 } : WifiState).isReconnecting = true ∧
    wifiStep { isReconnecting := true, reconnectAttempts := 2 } WifiEvent.disconnected
      = ({ isReconnecting := true, reconnectAttempts := 2 }, []) ∧
    reconnectWiFi { isReconnecting := true, reconnectAttempts := 2 } false
      = ({ isReconnecting := true, reconnectAttempts := 2 }, []) :=
  ⟨rfl,
   (claim_C3 { isReconnecting := true, reconnectAttempts := 2 } false rfl).1,
   (claim_C3 { isReconnecting := true, reconnectAttempts := 2 } false rfl).2⟩

/-- Claim C7: on a scheduler tick where a new session is pending and the old
session is present and still connected, the old session is first sent the
displacement notification, then forcibly closed, and only then is the new
session welcomed; afterwards exactly the new session is retained (one active
session). -/
theorem claim_C7 (old newC : Client) (hOld : old.connected = true)
    (hNew : newC.connected = true) :
    telnetTick (some old) true newC
      = (some newC,
         [TelnetAction.displacedMsg old.id, TelnetAction.stopClient old.id,
          TelnetAction.welcomeMsg newC.id]) := by
  simp [telnetTick, hOld, hNew]

theorem claim_C7_witness :
    (⟨1, true⟩ : Client).connected = true ∧
    telnetTick (some ⟨1, true⟩) true ⟨2, true⟩
      = (some ⟨2, true⟩,
         [TelnetAction.displacedMsg 1, TelnetAction.stopClient 1,
          TelnetAction.welcomeMsg 2]) :=
  ⟨rfl, claim_C7 ⟨1, true⟩ ⟨2, true⟩ rfl rfl⟩

/-- Claim C8 counterexample: at a tick where the NTP timezone is configured
and the gate interval has elapsed but the device is NOT connected, the
resync is still performed — refuting the claim that the resync happens
exactly when the connection state is Connected and the interval elapsed. -/
theorem claim_C8_counterexample :
    (ntpLoopTick stC8 NTP_SYNC_INTERVAL).2 = true ∧ stC8.connected = false := by
  constructor
  · decide
  · rfl

/-- Claim C8 (amended): on every scheduler tick, the clock-resync
collaborator is invoked and lastNtpSync reset to the current millis value
exactly when the NTP timezone has been configured (posixString set by
ntpStart) and the resync interval has elapsed since lastNtpSync in 32-bit
millis arithmetic; the current connection state is not consulted. When the
gate does not fire, the state is unchanged. -/
theorem claim_C8 (st : NtpState) (now : Nat) :
    ((ntpLoopTick st now).2 = true ↔
      st.posixString.isSome = true ∧ NTP_SYNC_INTERVAL ≤ sub32 now st.lastNtpSync) ∧
    ((ntpLoopTick st now).2 = true →
      (ntpLoopTick st now).1 = { st with lastNtpSync := now % UINT32_MOD }) ∧
    ((ntpLoopTick st now).2 = false → (ntpLoopTick st now).1 = st) := by
  unfold ntpLoopTick
  split
  · next hcond =>
    exact ⟨⟨fun _ => hcond, fun _ => rfl⟩, fun _ => rfl, fun hf => Bool.noConfusion hf⟩
  · next hcond =>
    refine ⟨⟨fun hf => Bool.noConfusion hf, fun hc => absurd hc hcond⟩, ?_, fun _ => rfl⟩
    intro hf
    exact Bool.noConfusion hf

theorem claim_C8_witness :
    (ntpLoopTick stC8 NTP_SYNC_INTERVAL).1
      = { stC8 with lastNtpSync := NTP_SYNC_INTERVAL % UINT32_MOD } :=
  (claim_C8 stC8 NTP_SYNC_INTERVAL).2.1 (by decide)

/-- Claim C9 counterexample: after a connected but UNSUCCESSFUL ntpStart
(the 5-second wait expires with the clock at 12345, below the validity
threshold, so no successful resync ever happened), the epoch accessor with
no override returns the raw clock value — not the 0 sentinel — and the
formatted accessors return a formatted string derived from that invalid
epoch instead of the null sentinel. -/
theorem claim_C9_counterexample :
    (ntpStart stC9 "CET-1CEST" 1000 12345).2 = false ∧
    ntpGetEpoch (ntpStart stC9 "CET-1CEST" 1000 12345).1 none ≠ 0 ∧
    ntpFormatted (fun n => toString n) (ntpStart stC9 "CET-1CEST" 1000 12345).1 none
      ≠ none := by
  refine ⟨rfl, by decide, by decide⟩

/-- Claim C9 (amended): the epoch accessor returns the 0 sentinel on every
call with no override timezone made while no timezone has been configured
(posixString still unset, as on a fresh device where ntpStart never reached
its configuration step — rather than merely before any successful resync);
and each formatted accessor returns the null sentinel exactly when the
epoch accessor returns 0, never formatting an invalid epoch. -/
theorem claim_C9 (st : NtpState) (tz : Option String) (strf : Nat → String) :
    (st.posixString = none → ntpGetEpoch st none = 0) ∧
    (ntpFormatted strf st tz = none ↔ ntpGetEpoch st tz = 0) ∧
    ntpGetEpoch (initNtpState st.connected st.clock) none = 0 := by
  refine ⟨?_, ?_, rfl⟩
  · intro h
    simp [ntpGetEpoch, h]
  · show (if ntpGetEpoch st tz = 0 then none else some (strf (ntpGetEpoch st tz))) = none
        ↔ ntpGetEpoch st tz = 0
    split
    · next h => exact ⟨fun _ => h, fun _ => rfl⟩
    · next h => exact ⟨fun hs => absurd hs (Option.some_ne_none _), fun hz => absurd hz h⟩

theorem claim_C9_witness :
    stC9.posixString = none ∧ ntpGetEpoch stC9 none = 0 :=
  ⟨rfl, (claim_C9 stC9 none (fun n => toString n)).1 rfl⟩

theorem MultiStream.writeN_buffer (ms : MultiStream) (bs : List Nat) :
    (ms.writeN bs).1.buffer = [] := by
  simp only [MultiStream.writeN]
  split
  · simp [MultiStream.flushBuffer_buffer]
  · next h => simp [List.length_eq_zero.mp (Nat.eq_zero_of_not_pos h)]

theorem MultiStream.writeN_telnet_of_not_connected (ms : MultiStream) (bs : List Nat)
    (h : ms.telnetConnected = false) :
    (ms.writeN bs).1.telnet = ms.telnet := by
  simp only [MultiStream.writeN]
  split
  · have h2 : ms.flushBuffer.telnetConnected = false := by
      rw [MultiStream.flushBuffer_telnetConnected]; exact h
    simp [h2, MultiStream.flushBuffer_telnet_of_not_connected ms h]
  · simp [h]

/-- Claim C4 counterexample: in a critical section with byte 65 buffered,
writing the line terminator does NOT leave the bytes in the buffer — the
line-terminator-triggered internal flush is not suppressed: the buffer is
cleared and both bytes are handed to the serial sink during the call. -/
theorem claim_C4_counterexample :
    (msC4.writeByte NEWLINE).1 ≠ { msC4 with buffer := msC4.buffer ++ [NEWLINE] } ∧
    (msC4.writeByte NEWLINE).1.buffer = [] ∧
    (msC4.writeByte NEWLINE).1.serial.pending = [65, NEWLINE] := by
  refine ⟨by decide, by decide, by decide⟩

/-- Claim C4 (amended): a single-byte write appends the byte to the buffer
and triggers the internal flush exactly when the fill cursor reaches
BUFFER_SIZE - 1 or the byte is the line terminator — inside and outside
critical sections alike; a critical section suppresses only the sink-level
drain of the triggered flush (the buffered bytes are still written to the
sinks but stay in sink-level buffering), while outside a critical section a
line-terminator write delivers the buffered bytes up to and including the
terminator before the call returns. -/
theorem claim_C4 (ms : MultiStream) (c : Nat) :
    (¬(BUFFER_SIZE - 1 ≤ (ms.buffer ++ [c]).length ∨ c = NEWLINE) →
       (ms.writeByte c).1 = { ms with buffer := ms.buffer ++ [c] }) ∧
    ((BUFFER_SIZE - 1 ≤ (ms.buffer ++ [c]).length ∨ c = NEWLINE) →
       (ms.writeByte c).1.buffer = [] ∧
       (ms.writeByte c).1.serial.observed = ms.serial.observed ++ ms.buffer ++ [c] ∧
       (ms.telnetConnected = true →
          (ms.writeByte c).1.telnet.observed = ms.telnet.observed ++ ms.buffer ++ [c]) ∧
       (ms.inCriticalSection = true →
          (ms.writeByte c).1.serial.delivered = ms.serial.delivered ∧
          (ms.writeByte c).1.telnet.delivered = ms.telnet.delivered)) ∧
    (ms.inCriticalSection = false → c = NEWLINE →
       (ms.writeByte c).1.serial.delivered
         = ms.serial.delivered ++ ms.serial.pending ++ ms.buffer ++ [c] ∧
       (ms.writeByte c).1.serial.pending = []) := by
  refine ⟨?_, ?_, ?_⟩
  · intro h
    simp only [MultiStream.writeByte]
    rw [if_neg h]
  · intro h
    simp only [MultiStream.writeByte]
    rw [if_pos h]
    refine ⟨MultiStream.flushBuffer_buffer _, ?_, ?_, ?_⟩
    · simp [MultiStream.flushBuffer_serial_observed, List.append_assoc]
    · intro hconn
      have h2 : ({ ms with buffer := ms.buffer ++ [c] } : MultiStream).telnetConnected = true :=
        hconn
      simp [MultiStream.flushBuffer_telnet_observed _ h2, List.append_assoc]
    · intro hcrit
      have h3 : ({ ms with buffer := ms.buffer ++ [c] } : MultiStream).inCriticalSection = true :=
        hcrit
      exact ⟨MultiStream.flushBuffer_serial_delivered_of_crit _ h3,
             MultiStream.flushBuffer_telnet_delivered_of_crit _ h3⟩
  · intro hc hnl
    simp only [MultiStream.writeByte]
    rw [if_pos (Or.inr hnl)]
    have h4 : ({ ms with buffer := ms.buffer ++ [c] } : MultiStream).inCriticalSection = false :=
      hc
    have h5 : 0 < ({ ms with buffer := ms.buffer ++ [c] } : MultiStream).buffer.length := by
      simp
    obtain ⟨e1, e2⟩ := MultiStream.flushBuffer_serial_of_not_crit _ h4 h5
    refine ⟨?_, e2⟩
    rw [e1]
    simp [List.append_assoc]

theorem claim_C4_witness :
    msW.inCriticalSection = false ∧
    (msW.writeByte NEWLINE).1.serial.delivered
      = msW.serial.delivered ++ msW.serial.pending ++ msW.buffer ++ [NEWLINE] ∧
    (msW.writeByte NEWLINE).1.serial.pending = [] :=
  ⟨rfl, ((claim_C4 msW NEWLINE).2.2 rfl rfl).1, ((claim_C4 msW NEWLINE).2.2 rfl rfl).2⟩

/-- Claim C6: a block write first pushes any buffered bytes to the sinks and
then the block itself, so the serial sink has then observed everything in
original order and the internal buffer is bypassed (left empty); the telnet
sink observes the same when connected and is silently skipped (unchanged)
when not, while the call still reports the full block length with no error;
and across any interleaving of operations each sink observes all bytes in
original write order (the sink stream plus the pending buffer always equals
the initial stream plus everything written). -/
theorem claim_C6 (ms : MultiStream) (bs : List Nat) :
    ((ms.writeN bs).1.serial.observed = ms.serial.observed ++ ms.buffer ++ bs ∧
     (ms.writeN bs).1.buffer = [] ∧
     (ms.writeN bs).2 = bs.length) ∧
    (ms.telnetConnected = true →
       (ms.writeN bs).1.telnet.observed = ms.telnet.observed ++ ms.buffer ++ bs) ∧
    (ms.telnetConnected = false → (ms.writeN bs).1.telnet = ms.telnet) ∧
    (∀ ops : List MSOp,
       (ms.run ops).serial.observed ++ (ms.run ops).buffer
         = ms.serial.observed ++ ms.buffer ++ opsBytes ops ∧
       (ms.telnetConnected = true →
         (ms.run ops).telnet.observed ++ (ms.run ops).buffer
           = ms.telnet.observed ++ ms.buffer ++ opsBytes ops)) := by
  refine ⟨⟨?_, MultiStream.writeN_buffer ms bs, rfl⟩, ?_, ?_, ?_⟩
  · have h1 : (ms.writeN bs).1.serial.observed ++ (ms.writeN bs).1.buffer
        = ms.serial.observed ++ ms.buffer ++ bs :=
      MultiStream.step_serial_observed ms (MSOp.wBlock bs)
    rw [MultiStream.writeN_buffer ms bs] at h1
    simpa using h1
  · intro h
    have h1 : (ms.writeN bs).1.telnet.observed ++ (ms.writeN bs).1.buffer
        = ms.telnet.observed ++ ms.buffer ++ bs :=
      MultiStream.step_telnet_observed ms (MSOp.wBlock bs) h
    rw [MultiStream.writeN_buffer ms bs] at h1
    simpa using h1
  · exact MultiStream.writeN_telnet_of_not_connected ms bs
  · intro ops
    exact ⟨MultiStream.run_serial_observed ops ms,
           fun h => MultiStream.run_telnet_observed ops ms h⟩

theorem claim_C6_witness :
    msW.telnetConnected = true ∧
    (msW.writeN [72, 105]).1.telnet.observed
      = msW.telnet.observed ++ msW.buffer ++ [72, 105] :=
  ⟨rfl, (claim_C6 msW [72, 105]).2.1 rfl⟩

/-- One multiplexer operation keeps the buffer fill cursor at or below
BUFFER_SIZE - 2. -/
theorem MultiStream.step_buffer_le (ms : MultiStream) (op : MSOp)
    (h : ms.buffer.length ≤ BUFFER_SIZE - 2) :
    (ms.step op).buffer.length ≤ BUFFER_SIZE - 2 := by
  cases op with
  | wByte c =>
    simp only [MultiStream.step, MultiStream.writeByte]
    split
    · simp [MultiStream.flushBuffer_buffer]
    · next hno =>
      have h1 : ¬ (BUFFER_SIZE - 1 ≤ (ms.buffer ++ [c]).length) := fun hy => hno (Or.inl hy)
      simp only [BUFFER_SIZE, List.length_append, List.length_singleton] at h1 ⊢
      omega
  | wBlock bs =>
    simp only [MultiStream.step]
    simp [MultiStream.writeN_buffer]
  | doFlush => simp [MultiStream.step, MultiStream.flush_buffer]
  | beginCS => simpa [MultiStream.step, MultiStream.beginCriticalSection] using h
  | endCS =>
    simp only [MultiStream.step, MultiStream.endCriticalSection]
    simp [MultiStream.flush_buffer]

/-- Any multiplexer run keeps the buffer fill cursor at or below
BUFFER_SIZE - 2. -/
theorem MultiStream.run_buffer_le :
    ∀ (ops : List MSOp) (ms : MultiStream), ms.buffer.length ≤ BUFFER_SIZE - 2 →
      (ms.run ops).buffer.length ≤ BUFFER_SIZE - 2 := by
  intro ops
  induction ops with
  | nil => intro ms h; exact h
  | cons op rest ih => intro ms h; exact ih _ (MultiStream.step_buffer_le ms op h)

/-- Claim C10: starting from any state whose fill cursor is at most
BUFFER_SIZE - 2 (as the fresh multiplexer is), after every operation
sequence the cursor is again at most BUFFER_SIZE - 2; consequently the
intermediate buffer inside a byte write — the state at the moment
flushBuffer is entered and its null-terminating store at index bufferIndex
happens — has length at most BUFFER_SIZE - 1, so both the append at index
bufferIndex and the store at index bufferIndex stay inside the
BUFFER_SIZE-byte array. -/
theorem claim_C10 (ms : MultiStream) (ops : List MSOp)
    (h : ms.buffer.length ≤ BUFFER_SIZE - 2) :
    (ms.run ops).buffer.length ≤ BUFFER_SIZE - 2 ∧
    ∀ c : Nat, (ms.buffer ++ [c]).length ≤ BUFFER_SIZE - 1 := by
  refine ⟨MultiStream.run_buffer_le ops ms h, ?_⟩
  intro c
  simp only [BUFFER_SIZE, List.length_append, List.length_singleton] at h ⊢
  omega

theorem claim_C10_witness :
    msW.buffer.length ≤ BUFFER_SIZE - 2 ∧
    (msW.run [MSOp.wByte 65, MSOp.beginCS, MSOp.wBlock [66, 67], MSOp.wByte NEWLINE,
        MSOp.endCS, MSOp.doFlush]).buffer.length ≤ BUFFER_SIZE - 2 :=
  ⟨by decide,
   (claim_C10 msW [MSOp.wByte 65, MSOp.beginCS, MSOp.wBlock [66, 67], MSOp.wByte NEWLINE,
      MSOp.endCS, MSOp.doFlush] (by decide)).1⟩

theorem MultiStream.endCriticalSection_buffer (ms : MultiStream) :
    ms.endCriticalSection.buffer = [] :=
  MultiStream.flush_buffer _

theorem MultiStream.endCriticalSection_serial_pending (ms : MultiStream) :
    ms.endCriticalSection.serial.pending = [] :=
  MultiStream.flush_serial_pending _

theorem MultiStream.endCriticalSection_serial_delivered (ms : MultiStream) :
    ms.endCriticalSection.serial.delivered = ms.serial.observed ++ ms.buffer :=
  MultiStream.flush_serial_delivered _

theorem MultiStream.endCriticalSection_telnet_pending (ms : MultiStream)
    (h : ms.telnetConnected = true) :
    ms.endCriticalSection.telnet.pending = [] :=
  MultiStream.flush_telnet_pending { ms with inCriticalSection := false } h

theorem MultiStream.endCriticalSection_telnet_delivered (ms : MultiStream)
    (h : ms.telnetConnected = true) :
    ms.endCriticalSection.telnet.delivered = ms.telnet.observed ++ ms.buffer :=
  MultiStream.flush_telnet_delivered { ms with inCriticalSection := false } h

/-- Claim C5: for a critical section wrapped around any sequence of write
operations, endCriticalSection unconditionally performs the full flush
(buffer empty, sink pending queues drained, even when nothing was written),
each sink then having delivered everything it ever observed plus every byte
written inside the section exactly once in original order (the telnet sink
under the hypothesis that it is connected), and no sink-level drain is
visible at any intermediate point between the two calls (after any cut of
the operation list, the delivered streams still equal the initial ones). -/
theorem claim_C5 (ms : MultiStream) (ops : List MSOp)
    (hw : ∀ op ∈ ops, op.isWrite = true) :
    ((ms.beginCriticalSection.run ops).endCriticalSection.buffer = [] ∧
     (ms.beginCriticalSection.run ops).endCriticalSection.serial.pending = []) ∧
    (ms.beginCriticalSection.run ops).endCriticalSection.serial.delivered
      = ms.serial.delivered ++ ms.serial.pending ++ ms.buffer ++ opsBytes ops ∧
    (ms.telnetConnected = true →
      (ms.beginCriticalSection.run ops).endCriticalSection.telnet.pending = [] ∧
      (ms.beginCriticalSection.run ops).endCriticalSection.telnet.delivered
        = ms.telnet.delivered ++ ms.telnet.pending ++ ms.buffer ++ opsBytes ops) ∧
    (∀ l1 l2, ops = l1 ++ l2 →
      (ms.beginCriticalSection.run l1).serial.delivered = ms.serial.delivered ∧
      (ms.beginCriticalSection.run l1).telnet.delivered = ms.telnet.delivered) := by
  refine ⟨⟨MultiStream.endCriticalSection_buffer _,
           MultiStream.endCriticalSection_serial_pending _⟩, ?_, ?_, ?_⟩
  · rw [MultiStream.endCriticalSection_serial_delivered,
      MultiStream.run_serial_observed ops ms.beginCriticalSection]
    simp [MultiStream.beginCriticalSection, Sink.observed, List.append_assoc]
  · intro h
    have hB : ms.beginCriticalSection.telnetConnected = true := h
    have hR : (ms.beginCriticalSection.run ops).telnetConnected = true := by
      rw [MultiStream.run_telnetConnected]; exact hB
    refine ⟨MultiStream.endCriticalSection_telnet_pending _ hR, ?_⟩
    rw [MultiStream.endCriticalSection_telnet_delivered _ hR,
      MultiStream.run_telnet_observed ops ms.beginCriticalSection hB]
    simp [MultiStream.beginCriticalSection, Sink.observed, List.append_assoc]
  · intro l1 l2 heq
    have hw1 : ∀ op ∈ l1, op.isWrite = true := by
      intro op hop
      exact hw op (by rw [heq]; exact List.mem_append_left _ hop)
    have hcB : ms.beginCriticalSection.inCriticalSection = true := rfl
    obtain ⟨d1, d2, _⟩ := MultiStream.run_delivered_of_crit l1 ms.beginCriticalSection hcB hw1
    exact ⟨d1, d2⟩

theorem claim_C5_witness :
    (∀ op ∈ [MSOp.wByte 72, MSOp.wBlock [73, NEWLINE]], op.isWrite = true) ∧
    (msW.beginCriticalSection.run
        [MSOp.wByte 72, MSOp.wBlock [73, NEWLINE]]).endCriticalSection.serial.delivered
      = msW.serial.delivered ++ msW.serial.pending ++ msW.buffer
        ++ opsBytes [MSOp.wByte 72, MSOp.wBlock [73, NEWLINE]] :=
  ⟨by decide, (claim_C5 msW [MSOp.wByte 72, MSOp.wBlock [73, NEWLINE]] (by decide)).2.1⟩
